import Mathlib

/-!
Shallow embedding of the outbound webhook subsystem of the backend-master
repository: subscription registry (`src/core/webhook/webhook.service.ts`),
event dispatcher (`triggerWebhooks`), delivery queue configuration
(`src/infra/queue/queues.ts`), and the delivery worker
(`startWebhookWorker` in the workers module).

Machine integers are modelled as `Nat` with explicit reduction modulo
2^32 where the SHA-256 compression function overflows; byte strings are
`List Nat` with every element below 256; fallible service calls return
`Except AppErr`.
-/

namespace Backend

/-! ## SHA-256 and HMAC-SHA256

The worker signs each delivery with `crypto.createHmac('sha256', secret)`.
`node:crypto` implements the standard HMAC-SHA256 (FIPS 180-4 / RFC 2104);
the functions below are that reference definition, executable so that
concrete test vectors evaluate inside the kernel. -/

namespace Sha256

/-- 2^32, the modulus for 32-bit words. -/
def M32 : Nat := 4294967296

/-- All-ones 32-bit word, used to implement bitwise complement. -/
def mask32 : Nat := 4294967295

/-- Right rotation of a 32-bit word. -/
def rotr (n x : Nat) : Nat := ((x >>> n) ||| (x <<< (32 - n))) % M32

/-- Logical right shift. -/
def shr (n x : Nat) : Nat := x >>> n

/-- Bitwise complement on 32 bits. -/
def wnot (x : Nat) : Nat := x ^^^ mask32

def ch (x y z : Nat) : Nat := (x &&& y) ^^^ (wnot x &&& z)

def maj (x y z : Nat) : Nat := (x &&& y) ^^^ (x &&& z) ^^^ (y &&& z)

def bsig0 (x : Nat) : Nat := rotr 2 x ^^^ rotr 13 x ^^^ rotr 22 x

def bsig1 (x : Nat) : Nat := rotr 6 x ^^^ rotr 11 x ^^^ rotr 25 x

def ssig0 (x : Nat) : Nat := rotr 7 x ^^^ rotr 18 x ^^^ shr 3 x

def ssig1 (x : Nat) : Nat := rotr 17 x ^^^ rotr 19 x ^^^ shr 10 x

/-- The 64 SHA-256 round constants (fractional parts of cube roots of the
first 64 primes). -/
def K : Array Nat := #[
  1116352408, 1899447441, 3049323471, 3921009573, 961987163,
  1508970993, 2453635748, 2870763221, 3624381080, 310598401,
  607225278, 1426881987, 1925078388, 2162078206, 2614888103,
  3248222580, 3835390401, 4022224774, 264347078, 604807628,
  770255983, 1249150122, 1555081692, 1996064986, 2554220882,
  2821834349, 2952996808, 3210313671, 3336571891, 3584528711,
  113926993, 338241895, 666307205, 773529912, 1294757372,
  1396182291, 1695183700, 1986661051, 2177026350, 2456956037,
  2730485921, 2820302411, 3259730800, 3345764771, 3516065817,
  3600352804, 4094571909, 275423344, 430227734, 506948616,
  659060556, 883997877, 958139571, 1322822218, 1537002063,
  1747873779, 1955562222, 2024104815, 2227730452, 2361852424,
  2428436474, 2756734187, 3204031479, 3329325298]

/-- Initial hash state (fractional parts of square roots of the first 8
primes). -/
def initH : Array Nat := #[
  1779033703, 3144134277, 1013904242, 2773480762, 1359893119,
  2600822924, 528734635, 1541459225]

/-- Extend a 16-word block to the 64-word message schedule. -/
def extendSchedule : Nat → Array Nat → Array Nat
  | 0, w => w
  | n + 1, w =>
    let t := w.size
    let nw := (ssig1 (w.getD (t - 2) 0) + w.getD (t - 7) 0 +
               ssig0 (w.getD (t - 15) 0) + w.getD (t - 16) 0) % M32
    extendSchedule n (w.push nw)

/-- The eight-word working state of the compression loop. -/
abbrev St8 := Nat × Nat × Nat × Nat × Nat × Nat × Nat × Nat

/-- One round of the SHA-256 compression loop. -/
def compressStep (w : Array Nat) (st : St8) (t : Nat) : St8 :=
  let (a, b, c, d, e, f, g, h) := st
  let t1 := (h + bsig1 e + ch e f g + K.getD t 0 + w.getD t 0) % M32
  let t2 := (bsig0 a + maj a b c) % M32
  ((t1 + t2) % M32, a, b, c, (d + t1) % M32, e, f, g)

/-- Process one 512-bit block (given as 16 words). -/
def compress (hv : Array Nat) (block : Array Nat) : Array Nat :=
  let w := extendSchedule 48 block
  let st0 : St8 := (hv.getD 0 0, hv.getD 1 0, hv.getD 2 0, hv.getD 3 0,
                    hv.getD 4 0, hv.getD 5 0, hv.getD 6 0, hv.getD 7 0)
  let (a, b, c, d, e, f, g, h) := (List.range 64).foldl (compressStep w) st0
  #[(hv.getD 0 0 + a) % M32, (hv.getD 1 0 + b) % M32,
    (hv.getD 2 0 + c) % M32, (hv.getD 3 0 + d) % M32,
    (hv.getD 4 0 + e) % M32, (hv.getD 5 0 + f) % M32,
    (hv.getD 6 0 + g) % M32, (hv.getD 7 0 + h) % M32]

/-- Pack bytes into big-endian 32-bit words (input length a multiple of 4). -/
def bytesToWords : List Nat → List Nat
  | b0 :: b1 :: b2 :: b3 :: rest =>
    ((b0 <<< 24) ||| (b1 <<< 16) ||| (b2 <<< 8) ||| b3) :: bytesToWords rest
  | _ => []

/-- The 8-byte big-endian encoding of the message bit length. -/
def lenBytes (bitLen : Nat) : List Nat :=
  [7, 6, 5, 4, 3, 2, 1, 0].map (fun i => (bitLen >>> (8 * i)) % 256)

/-- FIPS 180-4 padding: append 0x80, zeros, and the 64-bit bit length. -/
def pad (msg : List Nat) : List Nat :=
  msg ++ 0x80 :: List.replicate ((119 - msg.length % 64) % 64) 0 ++
    lenBytes (msg.length * 8)

/-- Split a word list (length a multiple of 16) into 16-word blocks. -/
def chunksWords : List Nat → List (Array Nat)
  | w0 :: w1 :: w2 :: w3 :: w4 :: w5 :: w6 :: w7 ::
    w8 :: w9 :: w10 :: w11 :: w12 :: w13 :: w14 :: w15 :: rest =>
    #[w0, w1, w2, w3, w4, w5, w6, w7,
      w8, w9, w10, w11, w12, w13, w14, w15] :: chunksWords rest
  | _ => []

/-- SHA-256 of a byte string, as a 32-byte string. -/
def sha256 (msg : List Nat) : List Nat :=
  let blocks := chunksWords (bytesToWords (pad msg))
  let hfin := blocks.foldl compress initH
  (hfin.toList.map (fun w =>
    [(w >>> 24) % 256, (w >>> 16) % 256, (w >>> 8) % 256, w % 256])).flatten

/-- HMAC-SHA256 (RFC 2104) over byte strings. -/
def hmacSha256 (key msg : List Nat) : List Nat :=
  let k0 := if 64 < key.length then sha256 key else key
  let kp := k0 ++ List.replicate (64 - k0.length) 0
  sha256 ((kp.map (· ^^^ 0x5c)) ++ sha256 ((kp.map (· ^^^ 0x36)) ++ msg))

/-- Lowercase hexadecimal digit. -/
def hexDigit (n : Nat) : Char :=
  (("0123456789abcdef").data).getD n '0'

/-- Lowercase hex encoding of a byte string (`Buffer.toString('hex')`). -/
def bytesToHex (bs : List Nat) : String :=
  String.mk ((bs.map (fun b => [hexDigit (b / 16), hexDigit (b % 16)])).flatten)

/-- UTF-8 encoding of a Unicode code point. -/
def utf8EncodeChar (c : Nat) : List Nat :=
  if c < 0x80 then [c]
  else if c < 0x800 then
    [0xc0 ||| (c >>> 6), 0x80 ||| (c &&& 0x3f)]
  else if c < 0x10000 then
    [0xe0 ||| (c >>> 12), 0x80 ||| ((c >>> 6) &&& 0x3f), 0x80 ||| (c &&& 0x3f)]
  else
    [0xf0 ||| (c >>> 18), 0x80 ||| ((c >>> 12) &&& 0x3f),
     0x80 ||| ((c >>> 6) &&& 0x3f), 0x80 ||| (c &&& 0x3f)]

/-- UTF-8 bytes of a string. -/
def utf8Bytes (s : String) : List Nat :=
  (s.data.map (fun ch => utf8EncodeChar ch.toNat)).flatten

/-- Hex-encoded HMAC-SHA256 over strings, exactly
`createHmac('sha256', key).update(msg).digest('hex')`. -/
def hmacSha256Hex (key msg : String) : String :=
  bytesToHex (hmacSha256 (utf8Bytes key) (utf8Bytes msg))

end Sha256

/-! ## JSON values and `JSON.stringify`

The dispatcher snapshots a `payload: Record<string, unknown>` into the job,
and the worker serializes it with `JSON.stringify` both for the signing
string and for the request body. -/

mutual

/-- A JSON value. Objects and arrays carry their members in order, as
`JSON.stringify` emits them. -/
inductive JsonVal where
  | str (s : String)
  | num (n : Int)
  | bool (b : Bool)
  | null
  | arr (xs : JsonArr)
  | obj (fields : JsonObj)

/-- The element list of a JSON array. -/
inductive JsonArr where
  | nil
  | cons (hd : JsonVal) (tl : JsonArr)

/-- The member list of a JSON object (keys in emission order). -/
inductive JsonObj where
  | nil
  | cons (key : String) (val : JsonVal) (tl : JsonObj)

end

/-- JSON string escaping as performed by `JSON.stringify`. -/
def jsonEscapeChar (c : Char) : List Char :=
  if c = '"' then ['\\', '"']
  else if c = '\\' then ['\\', '\\']
  else if c.toNat = 8 then ['\\', 'b']
  else if c.toNat = 9 then ['\\', 't']
  else if c.toNat = 10 then ['\\', 'n']
  else if c.toNat = 12 then ['\\', 'f']
  else if c.toNat = 13 then ['\\', 'r']
  else if c.toNat < 32 then
    ['\\', 'u', '0', '0', Sha256.hexDigit (c.toNat / 16), Sha256.hexDigit (c.toNat % 16)]
  else [c]

/-- A JSON string literal with quotes and escapes. -/
def jsonQuote (s : String) : String :=
  "\"" ++ String.mk ((s.data.map jsonEscapeChar).flatten) ++ "\""

mutual

/-- Function `JSON.stringify` for `JsonVal` (no spacing, members in order). -/
def jsonStringify : JsonVal → String
  | .str s => jsonQuote s
  | .num n => toString n
  | .bool b => if b then "true" else "false"
  | .null => "null"
  | .arr xs => "[" ++ stringifyArr xs ++ "]"
  | .obj fs => "\x7b" ++ stringifyObj fs ++ "\x7d"

/-- Comma-joined serialization of array elements. -/
def stringifyArr : JsonArr → String
  | .nil => ""
  | .cons v .nil => jsonStringify v
  | .cons v tl => jsonStringify v ++ "," ++ stringifyArr tl

/-- Comma-joined serialization of object members. -/
def stringifyObj : JsonObj → String
  | .nil => ""
  | .cons k v .nil => jsonQuote k ++ ":" ++ jsonStringify v
  | .cons k v tl => jsonQuote k ++ ":" ++ jsonStringify v ++ "," ++ stringifyObj tl

end

/-! ## Data model

Mirrors `prisma/migrations/20260213120043_add_phase3_models/migration.sql`:
`webhook_subscriptions`, `webhook_deliveries` (note: no foreign key and no
`ON DELETE CASCADE` between the two tables), and `tenant_plans` (unique on
`tenantId`). Timestamps are milliseconds since the epoch, as `Date.now()`. -/

/-- A row of `webhook_subscriptions`. -/
structure Subscription where
  id : String
  tenantId : String
  url : String
  events : List String
  secret : String
  isActive : Bool
  description : Option String
  createdBy : String
  createdAt : Nat
  updatedAt : Nat
deriving Repr, DecidableEq

/-- A row of `webhook_deliveries`. One row is inserted per
`prisma.webhookDelivery.create` call; rows are never updated in place. -/
structure DeliveryRow where
  webhookId : String
  event : String
  url : String
  payload : JsonVal
  statusCode : Option Nat
  responseBody : Option String
  error : Option String
  attempts : Nat
  deliveredAt : Option Nat
  createdAt : Nat

/-- A row of `tenant_plans` (the fields `createWebhook` reads). -/
structure TenantPlan where
  id : String
  tenantId : String
  maxWebhooks : Nat
deriving Repr, DecidableEq

/-- The durable store, as the webhook subsystem sees it. `deliveries` is
kept most-recent-first, so the `orderBy createdAt desc` of the log query is
the identity on it. -/
structure Db where
  subscriptions : List Subscription
  deliveries : List DeliveryRow
  plans : List TenantPlan

/-- Structure `WebhookJobData` from `src/infra/queue/queues.ts`: the immutable
snapshot carried by an enqueued delivery job. -/
structure WebhookJobData where
  webhookId : String
  event : String
  url : String
  secret : String
  payload : JsonObj

/-- An entry of the webhook queue: `addWebhookJob` adds the job under the
name `webhook-` ++ event. -/
structure QueuedJob where
  name : String
  data : WebhookJobData

/-- The error taxonomy of `src/shared/errors.ts` (the subsystem uses the
first four constructors). -/
inductive AppErr where
  | validation (msg : String)
  | notFound (msg : String)
  | conflict (msg : String)
  | forbidden (msg : String)
deriving Repr, DecidableEq

/-! ## Delivery worker (`startWebhookWorker`)

One delivery attempt, split into the pure request construction (signing
cannot fail) and the outcome handling that writes delivery rows. The HTTP
call itself is the only external effect; its result is passed in as an
`HttpOutcome`. -/

/-- Result of the `fetch` call: a settled HTTP response (any status), or a
rejected promise (network/transport failure) carrying the error message. -/
inductive HttpOutcome where
  | response (status : Nat) (body : String)
  | networkError (msg : String)

/-- Predicate `response.ok` of the WHATWG fetch API: status in the range 200–299. -/
def statusOk (status : Nat) : Bool := 200 ≤ status && status < 300

/-- The payload object carried by a job, as a JSON value. -/
def WebhookJobData.payloadJson (job : WebhookJobData) : JsonVal := .obj job.payload

/-- The signing string `"{timestamp}.{JSON(payload)}"`. -/
def signingString (ts : Nat) (payload : JsonVal) : String :=
  toString ts ++ "." ++ jsonStringify payload

/-- An outbound HTTP request, as handed to `fetch`. -/
structure HttpRequest where
  url : String
  method : String
  headers : List (String × String)
  body : String
deriving Repr, DecidableEq

/-- The request the worker sends for a job at timestamp `ts`
(`startWebhookWorker`, the signing and `fetch` call). -/
def buildWebhookRequest (job : WebhookJobData) (ts : Nat) : HttpRequest :=
  let signature := Sha256.hmacSha256Hex job.secret (signingString ts job.payloadJson)
  { url := job.url
    method := "POST"
    headers := [("Content-Type", "application/json"),
                ("X-Webhook-Event", job.event),
                ("X-Webhook-Signature", signature),
                ("X-Webhook-Timestamp", toString ts),
                ("User-Agent", "Enterprise-SaaS-Webhook/1.0")]
    body := jsonStringify job.payloadJson }

/-- What one attempt of the worker's job handler did: the delivery rows it
inserted (in order), whether the handler returned normally, and the message
of the error it threw otherwise. -/
structure AttemptResult where
  rows : List DeliveryRow
  success : Bool
  errMsg : Option String

/-- One execution of the webhook job handler, faithful to the try/catch in
`startWebhookWorker`. `attemptsMade` is BullMQ's `job.attemptsMade` (0 on
the first attempt); `now` is the clock reading. Note that on a non-2xx
response the handler first inserts the HTTP-failure row inside the `try`,
then throws, and its own `catch` inserts a second row before rethrowing. -/
def processWebhookJob (job : WebhookJobData) (attemptsMade : Nat) (now : Nat)
    (http : HttpOutcome) : AttemptResult :=
  let attemptNumber := attemptsMade + 1
  match http with
  | .networkError msg =>
    { rows := [{ webhookId := job.webhookId, event := job.event, url := job.url
                 payload := job.payloadJson, statusCode := none, responseBody := none
                 error := some msg, attempts := attemptNumber, deliveredAt := none
                 createdAt := now }]
      success := false, errMsg := some msg }
  | .response status body =>
    let row1 : DeliveryRow :=
      { webhookId := job.webhookId, event := job.event, url := job.url
        payload := job.payloadJson, statusCode := some status
        responseBody := some (body.take 1000)
        attempts := attemptNumber
        deliveredAt := if statusOk status then some now else none
        error := if statusOk status then none else some ("HTTP " ++ toString status)
        createdAt := now }
    if statusOk status then
      { rows := [row1], success := true, errMsg := none }
    else
      let msg := "Webhook delivery failed with status " ++ toString status
      let row2 : DeliveryRow :=
        { webhookId := job.webhookId, event := job.event, url := job.url
          payload := job.payloadJson, statusCode := none, responseBody := none
          error := some msg, attempts := attemptNumber, deliveredAt := none
          createdAt := now }
      { rows := [row1, row2], success := false, errMsg := some msg }

/-! ## Delivery queue and retry policy

`webhookQueue` in `src/infra/queue/queues.ts` is configured with
`attempts: 5` and exponential backoff with base delay 5000 ms. The retry
engine itself is BullMQ, a third-party dependency whose source is not in
this repository. Modelled from the spec: exponential backoff with
multiplier 2 over the configured base delay, capped at the configured
maximum attempt count, after which the job is exhausted and never retried. -/

/-- The per-queue retry options the repository configures. -/
structure QueueConfig where
  attempts : Nat
  backoffDelayMs : Nat
deriving Repr, DecidableEq

/-- The webhook queue's `defaultJobOptions`. -/
def webhookQueueOpts : QueueConfig := { attempts := 5, backoffDelayMs := 5000 }

/-- Modelled from the spec: delay (ms) inserted before the next attempt when
`made` attempts have already failed (made ≥ 1): base · 2^(made−1). -/
def backoffDelay (cfg : QueueConfig) (made : Nat) : Nat :=
  cfg.backoffDelayMs * 2 ^ (made - 1)

/-- Terminal state of a job. -/
inductive JobFinal where
  | succeeded
  | exhausted
deriving Repr, DecidableEq

/-- One executed attempt in a job's history. -/
structure AttemptExec where
  attemptNumber : Nat
  delayBeforeMs : Nat
  rows : List DeliveryRow
  success : Bool

/-- Modelled from the spec: the queue runs the handler, and on failure
retries after the backoff delay while attempts remain, else exhausts.
`outcomes n` / `times n` are the HTTP outcome and clock reading of the
attempt with `attemptsMade = n`; `fuel` is the number of attempts still
allowed. -/
def runFrom (cfg : QueueConfig) (job : WebhookJobData) (outcomes : Nat → HttpOutcome)
    (times : Nat → Nat) : Nat → Nat → List AttemptExec × JobFinal
  | _, 0 => ([], .exhausted)
  | made, fuel + 1 =>
    let res := processWebhookJob job made (times made) (outcomes made)
    let exec : AttemptExec :=
      { attemptNumber := made + 1
        delayBeforeMs := if made = 0 then 0 else backoffDelay cfg made
        rows := res.rows
        success := res.success }
    if res.success then ([exec], .succeeded)
    else
      let rest := runFrom cfg job outcomes times (made + 1) fuel
      (exec :: rest.1, rest.2)

/-- A complete run of one enqueued job under the queue's retry policy. -/
def runJob (cfg : QueueConfig) (job : WebhookJobData) (outcomes : Nat → HttpOutcome)
    (times : Nat → Nat) : List AttemptExec × JobFinal :=
  runFrom cfg job outcomes times 0 cfg.attempts

/-- All delivery rows a run inserted, in insertion order. -/
def runRows (r : List AttemptExec) : List DeliveryRow :=
  (r.map (·.rows)).flatten

/-! ## Subscription registry (`src/core/webhook/webhook.service.ts`)

URL parseability is the behaviour of the host's WHATWG `new URL` (also
used, on the update path, by the zod `.url()` validator of
`webhook.schema.ts`); it is passed in as an abstract predicate
`isValidUrl`, and theorems quantify over it. Secret randomness
(`crypto.randomBytes(32)`) is passed in as the 32 drawn bytes. -/

/-- Input `CreateWebhookInput` of the service. -/
structure CreateWebhookInput where
  url : String
  events : List String
  description : Option String

/-- Input `UpdateWebhookInput` of the service: a partial patch, `none` meaning
the field was not supplied. -/
structure UpdateWebhookInput where
  url : Option String
  events : Option (List String)
  description : Option String
  isActive : Option Bool

/-- Query `findFirst` on id and tenant, the tenant-scoped lookup. -/
def findWebhook (db : Db) (webhookId tenantId : String) : Option Subscription :=
  db.subscriptions.find? (fun w => w.id == webhookId && w.tenantId == tenantId)

/-- Service `getWebhook`: tenant-scoped fetch, `NotFoundError` when the id is
absent or owned by another tenant. -/
def getWebhook (db : Db) (webhookId tenantId : String) : Except AppErr Subscription :=
  match findWebhook db webhookId tenantId with
  | none => .error (.notFound "Webhook not found")
  | some w => .ok w

/-- The tenant's count of active subscriptions, as `createWebhook` counts
them (`where: tenantId, isActive: true`). -/
def activeWebhookCount (db : Db) (tenantId : String) : Nat :=
  (db.subscriptions.filter (fun w => w.tenantId == tenantId && w.isActive)).length

/-- Query `tenantPlan.findUnique` on the tenant (unique index on `tenantId`). -/
def findPlan (db : Db) (tenantId : String) : Option TenantPlan :=
  db.plans.find? (fun p => p.tenantId == tenantId)

/-- The subscription row `createWebhook` inserts, with the generated
secret (`isActive` takes the column default `true`). -/
def mkCreated (db : Db) (tenantId userId : String) (input : CreateWebhookInput)
    (secretBytes : List Nat) (newId : String) (now : Nat) : Subscription × Db :=
  let sub : Subscription :=
    { id := newId, tenantId := tenantId, url := input.url, events := input.events
      secret := Sha256.bytesToHex secretBytes, isActive := true
      description := input.description, createdBy := userId
      createdAt := now, updatedAt := now }
  (sub, { db with subscriptions := db.subscriptions ++ [sub] })

/-- Service `createWebhook`: URL validation, non-empty events validation, plan
limit check, then insertion with the freshly generated hex secret. The
created record (secret included) is what the route returns with 201. -/
def createWebhook (isValidUrl : String → Bool) (db : Db) (tenantId userId : String)
    (input : CreateWebhookInput) (secretBytes : List Nat) (newId : String) (now : Nat) :
    Except AppErr (Subscription × Db) :=
  if ¬ isValidUrl input.url then
    .error (.validation "Invalid webhook URL")
  else if input.events.isEmpty then
    .error (.validation "At least one event must be specified")
  else
    match findPlan db tenantId with
    | some plan =>
      if plan.maxWebhooks ≤ activeWebhookCount db tenantId then
        .error (.conflict ("Webhook limit reached. Your plan allows " ++
          toString plan.maxWebhooks ++ " webhooks."))
      else .ok (mkCreated db tenantId userId input secretBytes newId now)
    | none => .ok (mkCreated db tenantId userId input secretBytes newId now)

/-- The Prisma `update` data application: a supplied field replaces the
column, an unsupplied (`undefined`) field is left untouched. -/
def applyUpdate (w : Subscription) (input : UpdateWebhookInput) (now : Nat) : Subscription :=
  { w with
    url := input.url.getD w.url
    events := input.events.getD w.events
    description := match input.description with | some d => some d | none => w.description
    isActive := input.isActive.getD w.isActive
    updatedAt := now }

/-- Replace the row with the given id (the primary key is unique). -/
def replaceSub (subs : List Subscription) (id : String) (w' : Subscription) :
    List Subscription :=
  subs.map (fun s => if s.id == id then w' else s)

/-- Service `updateWebhook`. Note the JavaScript truthiness in `if (input.url)`:
the URL is re-parsed only when it is supplied and non-empty; a supplied
empty `events` array is rejected. -/
def updateWebhook (isValidUrl : String → Bool) (db : Db) (webhookId tenantId : String)
    (input : UpdateWebhookInput) (now : Nat) : Except AppErr (Subscription × Db) :=
  match getWebhook db webhookId tenantId with
  | .error e => .error e
  | .ok webhook =>
    if (match input.url with
        | some u => (u != "") && !(isValidUrl u)
        | none => false) then
      .error (.validation "Invalid webhook URL")
    else if (match input.events with | some es => es.isEmpty | none => false) then
      .error (.validation "At least one event must be specified")
    else
      let w' := applyUpdate webhook input now
      .ok (w', { db with subscriptions := replaceSub db.subscriptions webhook.id w' })

/-- Schema `updateWebhookSchema` of `webhook.schema.ts` (zod): when supplied,
`url` must parse and `events` must be non-empty; both optional. -/
def updateSchemaOk (isValidUrl : String → Bool) (input : UpdateWebhookInput) : Bool :=
  (match input.url with | some u => isValidUrl u | none => true) &&
  (match input.events with | some es => !es.isEmpty | none => true)

/-- The PATCH `/webhooks/:id` handler: zod validation, then the service
update. -/
def routeUpdateWebhook (isValidUrl : String → Bool) (db : Db) (webhookId tenantId : String)
    (input : UpdateWebhookInput) (now : Nat) : Except AppErr (Subscription × Db) :=
  if updateSchemaOk isValidUrl input then
    updateWebhook isValidUrl db webhookId tenantId input now
  else
    .error (.validation "Validation failed")

/-- Service `deleteWebhook`: tenant-scoped fetch, then `delete` of that row only.
The `webhook_deliveries` table has no foreign key to the subscription
(see the phase-3 migration), so `db.deliveries` is untouched. -/
def deleteWebhook (db : Db) (webhookId tenantId : String) : Except AppErr Db :=
  match getWebhook db webhookId tenantId with
  | .error e => .error e
  | .ok webhook =>
    .ok { db with subscriptions := db.subscriptions.filter (fun s => s.id != webhook.id) }

/-- Service `getWebhookDeliveries`: ownership check first, then the page of this
subscription's delivery rows (most recent first) and the total count. -/
def getWebhookDeliveries (db : Db) (webhookId tenantId : String) (page limit : Nat) :
    Except AppErr (List DeliveryRow × Nat) :=
  match getWebhook db webhookId tenantId with
  | .error e => .error e
  | .ok _ =>
    let all := db.deliveries.filter (fun d => d.webhookId == webhookId)
    .ok ((all.drop ((page - 1) * limit)).take limit, all.length)

/-! ## Event dispatcher (`triggerWebhooks` and `addWebhookJob`) -/

/-- Structure `WebhookEvent`: the dispatch input. -/
structure WebhookEvent where
  event : String
  tenantId : String
  payload : JsonObj

/-- The dispatch result; the source returns the object with field name
`triggered` (the spec calls the same count `triggeredCount`). -/
structure TriggerResult where
  triggered : Nat
deriving Repr, DecidableEq

/-- The subscription filter of `triggerWebhooks`: same tenant, active, and
the event name among the subscribed events. -/
def webhookMatches (tenantId event : String) (w : Subscription) : Bool :=
  w.tenantId == tenantId && w.isActive && w.events.contains event

/-- Helper `addWebhookJob` of `queues.ts`: adds one job named `webhook-` ++ event
to the webhook queue. -/
def addWebhookJob (queue : List QueuedJob) (data : WebhookJobData) : List QueuedJob :=
  queue ++ [{ name := "webhook-" ++ data.event, data := data }]

/-- The snapshot `triggerWebhooks` places in the job for one matching
subscription. -/
def jobSnapshot (ev : WebhookEvent) (w : Subscription) : WebhookJobData :=
  { webhookId := w.id, event := ev.event, url := w.url, secret := w.secret
    payload := ev.payload }

/-- Service `triggerWebhooks`: query the matching subscriptions; with none, return
triggered = 0 without touching the queue; otherwise enqueue one snapshot
job per match and return their count. -/
def triggerWebhooks (db : Db) (queue : List QueuedJob) (ev : WebhookEvent) :
    TriggerResult × List QueuedJob :=
  let webhooks := db.subscriptions.filter (webhookMatches ev.tenantId ev.event)
  if webhooks.isEmpty then
    ({ triggered := 0 }, queue)
  else
    ({ triggered := webhooks.length },
     webhooks.foldl (fun q w => addWebhookJob q (jobSnapshot ev w)) queue)

/-! ## Shared concrete fixtures (for witnesses) -/

/-- A sample active subscription of tenant t1. -/
def subA : Subscription :=
  { id := "wh_a", tenantId := "t1", url := "https://a.example/hook"
    events := ["post.created", "post.deleted"], secret := "whsec_abc123"
    isActive := true, description := none, createdBy := "u1"
    createdAt := 100, updatedAt := 100 }

/-- A sample subscription of the foreign tenant t2. -/
def subB : Subscription :=
  { id := "wh_b", tenantId := "t2", url := "https://b.example/hook"
    events := ["post.created"], secret := "whsec_b", isActive := true
    description := none, createdBy := "u2", createdAt := 110, updatedAt := 110 }

/-- A delivery row already written for subA. -/
def rowA : DeliveryRow :=
  { webhookId := "wh_a", event := "post.created", url := "https://a.example/hook"
    payload := .obj .nil, statusCode := some 200, responseBody := some ""
    error := none, attempts := 1, deliveredAt := some 150, createdAt := 150 }

/-- A sample store holding both tenants' data and no plan rows. -/
def sampleDb : Db := { subscriptions := [subA, subB], deliveries := [rowA], plans := [] }

/-- A sample dispatch input for tenant t1. -/
def sampleEv : WebhookEvent :=
  { event := "post.created", tenantId := "t1"
    payload := .cons "id" (.num 1) (.cons "type" (.str "post.created") .nil) }

/-- A sample job snapshot (what dispatching `sampleEv` on `subA` enqueues). -/
def sampleJob : WebhookJobData :=
  { webhookId := "wh_a", event := "post.created", url := "https://a.example/hook"
    secret := "whsec_abc123"
    payload := .cons "id" (.num 1) (.cons "type" (.str "post.created") .nil) }

/-- A concrete URL-parseability stand-in used by witnesses (theorems
quantify over the predicate). -/
def urlOk (u : String) : Bool :=
  (u.data.take 8 == "https://".data) || (u.data.take 7 == "http://".data)

/-- A partial update touching only description and isActive. -/
def patchDI : UpdateWebhookInput :=
  { url := none, events := none, description := some "d", isActive := some false }

/-- A partial update supplying an unparseable URL. -/
def patchBadUrl : UpdateWebhookInput :=
  { url := some "bad", events := none, description := none, isActive := none }

/-- A plan row capping tenant t1 at one webhook. -/
def planT1 : TenantPlan := { id := "plan1", tenantId := "t1", maxWebhooks := 1 }

/-- The sample store together with the plan row for t1. -/
def plannedDb : Db :=
  { subscriptions := [subA, subB], deliveries := [rowA], plans := [planT1] }

/-! ## Claims -/

/-- Fanning out jobs one `addWebhookJob` at a time appends the mapped
job list. -/
theorem foldl_addWebhookJob (ev : WebhookEvent) (ws : List Subscription)
    (q : List QueuedJob) :
    ws.foldl (fun q w => addWebhookJob q (jobSnapshot ev w)) q
      = q ++ ws.map (fun w => { name := "webhook-" ++ ev.event, data := jobSnapshot ev w }) := by
  induction ws generalizing q with
  | nil => simp
  | cons w ws ih =>
    rw [List.foldl_cons, ih]
    simp [addWebhookJob, jobSnapshot]

/-- The dispatch count is the number of matching subscriptions. -/
theorem triggerWebhooks_fst (db : Db) (q : List QueuedJob) (ev : WebhookEvent) :
    (triggerWebhooks db q ev).1.triggered
      = db.subscriptions.countP (webhookMatches ev.tenantId ev.event) := by
  unfold triggerWebhooks
  rw [List.countP_eq_length_filter]
  rcases hfil : db.subscriptions.filter (webhookMatches ev.tenantId ev.event) with _ | ⟨w, ws⟩
  · simp
  · rfl

/-- Dispatch appends exactly one snapshot job per matching subscription
(none when nothing matches). -/
theorem triggerWebhooks_snd (db : Db) (q : List QueuedJob) (ev : WebhookEvent) :
    (triggerWebhooks db q ev).2
      = q ++ (db.subscriptions.filter (webhookMatches ev.tenantId ev.event)).map
          (fun w => { name := "webhook-" ++ ev.event, data := jobSnapshot ev w }) := by
  unfold triggerWebhooks
  rcases hfil : db.subscriptions.filter (webhookMatches ev.tenantId ev.event) with _ | ⟨w, ws⟩
  · simp
  · exact foldl_addWebhookJob ev (w :: ws) q

/-- C2: `triggerWebhooks` counts exactly the tenant's active subscriptions
whose events contain the dispatched event; one job per match is appended
to the queue, carrying the dispatch-time snapshot of subscription id,
url, secret, event and payload; with no match the count is 0 and the
queue is untouched. (The source returns the count under the field name
`triggered`; the spec calls it `triggeredCount`.) -/
theorem C2_trigger_fanout (db : Db) (queue : List QueuedJob) (ev : WebhookEvent) :
    (triggerWebhooks db queue ev).1.triggered
        = db.subscriptions.countP (webhookMatches ev.tenantId ev.event)
    ∧ (triggerWebhooks db queue ev).2
        = queue ++ (db.subscriptions.filter (webhookMatches ev.tenantId ev.event)).map
            (fun w => { name := "webhook-" ++ ev.event, data := jobSnapshot ev w })
    ∧ (∀ w, (jobSnapshot ev w).webhookId = w.id ∧ (jobSnapshot ev w).url = w.url
        ∧ (jobSnapshot ev w).secret = w.secret ∧ (jobSnapshot ev w).event = ev.event
        ∧ (jobSnapshot ev w).payload = ev.payload)
    ∧ (db.subscriptions.filter (webhookMatches ev.tenantId ev.event) = [] →
        (triggerWebhooks db queue ev).1.triggered = 0
        ∧ (triggerWebhooks db queue ev).2 = queue) := by
  refine ⟨triggerWebhooks_fst db queue ev, triggerWebhooks_snd db queue ev,
    fun w => ⟨rfl, rfl, rfl, rfl, rfl⟩, fun hfil => ⟨?_, ?_⟩⟩
  · rw [triggerWebhooks_fst db queue ev, List.countP_eq_length_filter, hfil]
    rfl
  · rw [triggerWebhooks_snd db queue ev, hfil]
    simp

/-- C2 witness: dispatching an event no subscription matches returns
triggered = 0 and leaves the queue untouched. -/
theorem C2_trigger_fanout_witness :
    (triggerWebhooks sampleDb []
        { event := "user.created", tenantId := "t1", payload := .nil }).1.triggered = 0
    ∧ (triggerWebhooks sampleDb []
        { event := "user.created", tenantId := "t1", payload := .nil }).2 = [] :=
  (C2_trigger_fanout sampleDb [] _).2.2.2 (by decide)

set_option maxRecDepth 10000 in
/-- C3: the worker's outbound request is a POST to the job's url whose
body is the JSON-serialized payload, whose headers are exactly the
content type, event name, hex HMAC-SHA256 signature of
timestamp.JSON(payload) keyed by the job's secret, the timestamp, and
the fixed user-agent; and on a known (secret, timestamp, payload) triple
the signature equals the precomputed reference HMAC-SHA256 test vector. -/
theorem C3_request_signature (job : WebhookJobData) (ts : Nat) :
    (buildWebhookRequest job ts).method = "POST"
    ∧ (buildWebhookRequest job ts).url = job.url
    ∧ (buildWebhookRequest job ts).body = jsonStringify job.payloadJson
    ∧ (buildWebhookRequest job ts).headers =
        [("Content-Type", "application/json"),
         ("X-Webhook-Event", job.event),
         ("X-Webhook-Signature",
           Sha256.hmacSha256Hex job.secret (toString ts ++ "." ++ jsonStringify job.payloadJson)),
         ("X-Webhook-Timestamp", toString ts),
         ("User-Agent", "Enterprise-SaaS-Webhook/1.0")]
    ∧ (buildWebhookRequest sampleJob 1700000000000).headers.lookup "X-Webhook-Signature"
        = some "15907ae96ab12c42e7db943f75de7ef099c076fa9f258d4779ee7f3d43ec4953" := by
  exact ⟨rfl, rfl, rfl, rfl, by decide⟩

/-- C4: a 2xx response yields one log row carrying the status, the body
truncated to 1000 characters, deliveredAt = now, error = null, and the
handler returns success (no retry); a non-2xx response or a transport
failure yields rows with deliveredAt = null and attempts = the current
ordinal — the first such row carrying error "HTTP status" on an HTTP
failure, or the transport message — and the handler signals failure; a
row's deliveredAt is ever set only for a 2xx response. -/
theorem C4_attempt_outcome (job : WebhookJobData) (made now : Nat) :
    (∀ status body, statusOk status = true →
      processWebhookJob job made now (.response status body) =
        { rows := [{ webhookId := job.webhookId, event := job.event, url := job.url
                     payload := job.payloadJson, statusCode := some status
                     responseBody := some (body.take 1000), error := none
                     attempts := made + 1, deliveredAt := some now, createdAt := now }]
          success := true, errMsg := none })
    ∧ (∀ status body, statusOk status = false →
      processWebhookJob job made now (.response status body) =
        { rows := [{ webhookId := job.webhookId, event := job.event, url := job.url
                     payload := job.payloadJson, statusCode := some status
                     responseBody := some (body.take 1000)
                     error := some ("HTTP " ++ toString status)
                     attempts := made + 1, deliveredAt := none, createdAt := now },
                   { webhookId := job.webhookId, event := job.event, url := job.url
                     payload := job.payloadJson, statusCode := none
                     responseBody := none
                     error := some ("Webhook delivery failed with status " ++ toString status)
                     attempts := made + 1, deliveredAt := none, createdAt := now }]
          success := false
          errMsg := some ("Webhook delivery failed with status " ++ toString status) })
    ∧ (∀ msg, processWebhookJob job made now (.networkError msg) =
        { rows := [{ webhookId := job.webhookId, event := job.event, url := job.url
                     payload := job.payloadJson, statusCode := none, responseBody := none
                     error := some msg, attempts := made + 1, deliveredAt := none
                     createdAt := now }]
          success := false, errMsg := some msg })
    ∧ (∀ o, ∀ r ∈ (processWebhookJob job made now o).rows, r.deliveredAt ≠ none →
        ∃ status body, o = .response status body ∧ statusOk status = true
          ∧ r.deliveredAt = some now) := by
  refine ⟨fun status body h => ?_, fun status body h => ?_, fun msg => rfl, fun o r hr hd => ?_⟩
  · simp [processWebhookJob, h]
  · simp [processWebhookJob, h]
  · match o with
    | .networkError msg =>
      simp [processWebhookJob] at hr
      rw [hr] at hd
      simp at hd
    | .response status body =>
      by_cases h : statusOk status = true
      · refine ⟨status, body, rfl, h, ?_⟩
        simp [processWebhookJob, h] at hr
        rw [hr]
      · rw [Bool.not_eq_true] at h
        simp [processWebhookJob, h] at hr
        rcases hr with hr | hr <;> rw [hr] at hd <;> simp at hd

/-- C4 witness: the three outcome shapes at concrete inputs, read off the
inserted rows (status code, error, attempt ordinal, deliveredAt) and the
handler's result. -/
theorem C4_attempt_outcome_witness :
    ((processWebhookJob sampleJob 0 1000 (.response 200 "ok")).rows.map
        (fun r => (r.statusCode, r.error, r.attempts, r.deliveredAt)))
      = [(some 200, none, 1, some 1000)]
    ∧ (processWebhookJob sampleJob 0 1000 (.response 200 "ok")).success = true
    ∧ ((processWebhookJob sampleJob 1 2000 (.response 500 "oops")).rows.map
        (fun r => (r.statusCode, r.error, r.attempts, r.deliveredAt)))
      = [(some 500, some "HTTP 500", 2, none),
         (none, some "Webhook delivery failed with status 500", 2, none)]
    ∧ (processWebhookJob sampleJob 1 2000 (.response 500 "oops")).success = false
    ∧ ((processWebhookJob sampleJob 2 3000 (.networkError "fetch failed")).rows.map
        (fun r => (r.statusCode, r.error, r.attempts, r.deliveredAt)))
      = [(none, some "fetch failed", 3, none)]
    ∧ (processWebhookJob sampleJob 2 3000 (.networkError "fetch failed")).success = false := by
  have h1 := (C4_attempt_outcome sampleJob 0 1000).1 200 "ok" (by decide)
  have h2 := (C4_attempt_outcome sampleJob 1 2000).2.1 500 "oops" (by decide)
  have h3 := (C4_attempt_outcome sampleJob 2 3000).2.2.1 "fetch failed"
  refine ⟨?_, ?_, ?_, ?_, ?_, ?_⟩ <;> decide

/-- The spec's reference endpoint behaviour: 500 on the first two calls,
200 on the third. -/
def c1Outcomes : Nat → HttpOutcome := fun n =>
  if n < 2 then .response 500 "Internal Server Error" else .response 200 "ok"

set_option maxRecDepth 10000 in
/-- C1 (refuting evaluation): for the job whose endpoint returns 500, 500,
then 200, the worker writes FIVE delivery rows with attempt ordinals
1, 1, 2, 2, 3 — not three rows with ordinals 1, 2, 3 — because on a
non-2xx response the handler inserts the HTTP-failure row inside its
`try` block, then throws, and its own `catch` inserts a second row for
the same attempt before rethrowing. Only the final (2xx) row has
deliveredAt set, and a single non-2xx attempt already yields 2 rows. -/
theorem C1_doubleLog_500_500_200 :
    ((runRows (runJob webhookQueueOpts sampleJob c1Outcomes (fun n => 1000 + n)).1).map
        (fun r => r.attempts)) = [1, 1, 2, 2, 3]
    ∧ (runRows (runJob webhookQueueOpts sampleJob c1Outcomes (fun n => 1000 + n)).1).length = 5
    ∧ (((runRows (runJob webhookQueueOpts sampleJob c1Outcomes (fun n => 1000 + n)).1).filter
        (fun r => r.deliveredAt != none)).map (fun r => r.attempts)) = [3]
    ∧ (runJob webhookQueueOpts sampleJob c1Outcomes (fun n => 1000 + n)).2 = .succeeded
    ∧ (processWebhookJob sampleJob 0 1000 (.response 500 "err")).rows.length = 2 := by
  decide

/-- Attempts executed by a run never exceed the remaining attempt budget. -/
theorem runFrom_length_le (cfg : QueueConfig) (job : WebhookJobData)
    (outcomes : Nat → HttpOutcome) (times : Nat → Nat) (made fuel : Nat) :
    (runFrom cfg job outcomes times made fuel).1.length ≤ fuel := by
  induction fuel generalizing made with
  | zero => simp [runFrom]
  | succ f ih =>
    rw [runFrom]
    dsimp only
    split
    · simp
    · simpa using Nat.succ_le_succ (ih (made + 1))

/-- Attempt ordinals stay within the budget window. -/
theorem runFrom_attemptNumber_le (cfg : QueueConfig) (job : WebhookJobData)
    (outcomes : Nat → HttpOutcome) (times : Nat → Nat) (made fuel : Nat) :
    ∀ e ∈ (runFrom cfg job outcomes times made fuel).1, e.attemptNumber ≤ made + fuel := by
  induction fuel generalizing made with
  | zero => simp [runFrom]
  | succ f ih =>
    rw [runFrom]
    dsimp only
    split
    · intro e he
      rw [List.mem_singleton] at he
      subst he
      show made + 1 ≤ made + (f + 1)
      omega
    · intro e he
      rcases List.mem_cons.mp he with h | h
      · subst h
        show made + 1 ≤ made + (f + 1)
        omega
      · have := ih (made + 1) e h
        omega

/-- C5 (amended): the webhook queue allows at most 5 attempts per job —
no attempt ordinal ever exceeds 5 and no 6th attempt occurs; the backoff
is exponential with base 5000 ms and multiplier 2; and for a job whose
every attempt fails, exactly 5 attempts run, preceded by delays of 0,
5s, 10s, 20s and 40s (the 80s step of the doubling schedule would
precede a 6th attempt, which never happens), after which the job is
exhausted and never retried. -/
theorem C5_retry_policy (job : WebhookJobData) (outcomes : Nat → HttpOutcome)
    (times : Nat → Nat) :
    webhookQueueOpts.attempts = 5
    ∧ webhookQueueOpts.backoffDelayMs = 5000
    ∧ (∀ made, backoffDelay webhookQueueOpts made = 5000 * 2 ^ (made - 1))
    ∧ (runJob webhookQueueOpts job outcomes times).1.length ≤ 5
    ∧ (∀ e ∈ (runJob webhookQueueOpts job outcomes times).1, e.attemptNumber ≤ 5)
    ∧ ((∀ n, (processWebhookJob job n (times n) (outcomes n)).success = false) →
        (runJob webhookQueueOpts job outcomes times).1.map (fun e => e.attemptNumber)
            = [1, 2, 3, 4, 5]
        ∧ (runJob webhookQueueOpts job outcomes times).1.map (fun e => e.delayBeforeMs)
            = [0, 5000, 10000, 20000, 40000]
        ∧ (runJob webhookQueueOpts job outcomes times).2 = .exhausted) := by
  refine ⟨rfl, rfl, fun made => rfl, runFrom_length_le _ _ _ _ 0 5,
    runFrom_attemptNumber_le _ _ _ _ 0 5, fun hfail => ?_⟩
  have h0 := hfail 0
  have h1 := hfail 1
  have h2 := hfail 2
  have h3 := hfail 3
  have h4 := hfail 4
  refine ⟨?_, ?_, ?_⟩ <;>
    simp [runJob, runFrom, h0, h1, h2, h3, h4, backoffDelay, webhookQueueOpts]

/-- C5 witness: a job whose endpoint always answers 500 runs exactly 5
attempts with delays 0/5s/10s/20s/40s and exhausts. -/
theorem C5_retry_policy_witness :
    (runJob webhookQueueOpts sampleJob (fun _ => .response 500 "err")
        (fun _ => 1000)).1.map (fun e => e.attemptNumber) = [1, 2, 3, 4, 5]
    ∧ (runJob webhookQueueOpts sampleJob (fun _ => .response 500 "err")
        (fun _ => 1000)).1.map (fun e => e.delayBeforeMs) = [0, 5000, 10000, 20000, 40000]
    ∧ (runJob webhookQueueOpts sampleJob (fun _ => .response 500 "err")
        (fun _ => 1000)).2 = .exhausted :=
  (C5_retry_policy sampleJob _ _).2.2.2.2.2 (fun _ => rfl)

/-- C5 counterexample: with an always-failing endpoint the 5 executed
attempts are preceded by delays 0, 5s, 10s, 20s and 40s only — no
attempt (in particular none of attempts 2–5) is preceded by an 80s
delay, contradicting the claim's delay list "5s, 10s, 20s, 40s, 80s
before attempts 2–5". -/
theorem C5_delay_counterexample :
    ((runJob webhookQueueOpts sampleJob (fun _ => .response 500 "err")
        (fun n => 1000 * n)).1.map (fun e => e.delayBeforeMs)) = [0, 5000, 10000, 20000, 40000]
    ∧ ∀ e ∈ (runJob webhookQueueOpts sampleJob (fun _ => .response 500 "err")
        (fun n => 1000 * n)).1, e.delayBeforeMs ≠ 80000 := by
  decide

/-- When no subscription row has the id with the tenant, the scoped lookup
is empty. -/
theorem findWebhook_eq_none (db : Db) (webhookId tenantId : String)
    (h : ¬ ∃ s ∈ db.subscriptions, s.id = webhookId ∧ s.tenantId = tenantId) :
    findWebhook db webhookId tenantId = none := by
  unfold findWebhook
  rw [List.find?_eq_none]
  intro a ha
  simp only [Bool.and_eq_true, beq_iff_eq]
  intro hc
  exact h ⟨a, ha, hc⟩

/-- What a successful scoped lookup returns: a stored row with the id,
owned by the tenant. -/
theorem findWebhook_eq_some (db : Db) (webhookId tenantId : String) (s : Subscription)
    (h : findWebhook db webhookId tenantId = some s) :
    s ∈ db.subscriptions ∧ s.id = webhookId ∧ s.tenantId = tenantId := by
  unfold findWebhook at h
  have hm := List.mem_of_find?_eq_some h
  have hp := List.find?_some h
  simp only [Bool.and_eq_true, beq_iff_eq] at hp
  exact ⟨hm, hp⟩

/-- C6: get, update, delete and the delivery-log listing succeed only on a
subscription of the caller's tenant; an absent id or a foreign tenant's id
makes each of them fail with NotFound (never Forbidden); and the listing
checks ownership before returning rows, every returned row belonging to
the checked subscription — so (ids being unique) no foreign tenant's
delivery row is ever returned. -/
theorem C6_tenant_scoping (db : Db) (webhookId tenantId : String)
    (isValidUrl : String → Bool) (input : UpdateWebhookInput) (now page limit : Nat) :
    ((¬ ∃ s ∈ db.subscriptions, s.id = webhookId ∧ s.tenantId = tenantId) →
        getWebhook db webhookId tenantId = .error (.notFound "Webhook not found")
        ∧ updateWebhook isValidUrl db webhookId tenantId input now
            = .error (.notFound "Webhook not found")
        ∧ deleteWebhook db webhookId tenantId = .error (.notFound "Webhook not found")
        ∧ getWebhookDeliveries db webhookId tenantId page limit
            = .error (.notFound "Webhook not found"))
    ∧ (∀ s, getWebhook db webhookId tenantId = .ok s →
        s ∈ db.subscriptions ∧ s.id = webhookId ∧ s.tenantId = tenantId)
    ∧ (∀ r db', updateWebhook isValidUrl db webhookId tenantId input now = .ok (r, db') →
        ∃ s ∈ db.subscriptions, s.id = webhookId ∧ s.tenantId = tenantId)
    ∧ (∀ db', deleteWebhook db webhookId tenantId = .ok db' →
        ∃ s ∈ db.subscriptions, s.id = webhookId ∧ s.tenantId = tenantId)
    ∧ (∀ rows total,
        getWebhookDeliveries db webhookId tenantId page limit = .ok (rows, total) →
        (∃ s ∈ db.subscriptions, s.id = webhookId ∧ s.tenantId = tenantId)
        ∧ (∀ r ∈ rows, r.webhookId = webhookId)
        ∧ ((db.subscriptions.map (fun s => s.id)).Nodup →
            ∀ r ∈ rows, ∀ s ∈ db.subscriptions, s.id = r.webhookId →
              s.tenantId = tenantId)) := by
  refine ⟨fun habs => ?_, fun s hs => ?_, fun r db' h => ?_, fun db' h => ?_,
    fun rows total h => ?_⟩
  · have hnone := findWebhook_eq_none db webhookId tenantId habs
    refine ⟨?_, ?_, ?_, ?_⟩ <;>
      simp [getWebhook, updateWebhook, deleteWebhook, getWebhookDeliveries, hnone]
  · unfold getWebhook at hs
    rcases hfind : findWebhook db webhookId tenantId with _ | w <;> rw [hfind] at hs
    · exact absurd hs (by simp)
    · simp only [Except.ok.injEq] at hs
      exact hs ▸ findWebhook_eq_some db webhookId tenantId w hfind
  · unfold updateWebhook getWebhook at h
    rcases hfind : findWebhook db webhookId tenantId with _ | w <;> rw [hfind] at h
    · exact absurd h (by simp)
    · obtain ⟨hm, hid, ht⟩ := findWebhook_eq_some db webhookId tenantId w hfind
      exact ⟨w, hm, hid, ht⟩
  · unfold deleteWebhook getWebhook at h
    rcases hfind : findWebhook db webhookId tenantId with _ | w <;> rw [hfind] at h
    · exact absurd h (by simp)
    · obtain ⟨hm, hid, ht⟩ := findWebhook_eq_some db webhookId tenantId w hfind
      exact ⟨w, hm, hid, ht⟩
  · unfold getWebhookDeliveries getWebhook at h
    rcases hfind : findWebhook db webhookId tenantId with _ | w <;> rw [hfind] at h
    · exact absurd h (by simp)
    · obtain ⟨hm, hid, ht⟩ := findWebhook_eq_some db webhookId tenantId w hfind
      simp only [Except.ok.injEq, Prod.mk.injEq] at h
      have hrows : ∀ r ∈ rows, r.webhookId = webhookId := by
        intro r hr
        rw [← h.1] at hr
        have hfil := List.mem_of_mem_drop (List.mem_of_mem_take hr)
        have := List.of_mem_filter hfil
        simpa [beq_iff_eq] using this
      refine ⟨⟨w, hm, hid, ht⟩, hrows, fun hnd r hr s hsmem hsid => ?_⟩
      have : s = w := List.inj_on_of_nodup_map hnd hsmem hm (by rw [hsid, hrows r hr, hid])
      rw [this, ht]

/-- C6 witness: tenant t1 accessing t2's subscription wh_b gets NotFound
from all four operations, and listing wh_a's deliveries returns only
wh_a's rows. -/
theorem C6_tenant_scoping_witness :
    (getWebhook sampleDb "wh_b" "t1" = .error (.notFound "Webhook not found")
      ∧ updateWebhook urlOk sampleDb "wh_b" "t1"
          { url := none, events := none, description := none, isActive := none } 999
          = .error (.notFound "Webhook not found")
      ∧ deleteWebhook sampleDb "wh_b" "t1" = .error (.notFound "Webhook not found")
      ∧ getWebhookDeliveries sampleDb "wh_b" "t1" 1 50
          = .error (.notFound "Webhook not found"))
    ∧ (∀ r ∈ [rowA], r.webhookId = "wh_a") :=
  ⟨(C6_tenant_scoping sampleDb "wh_b" "t1" urlOk
      { url := none, events := none, description := none, isActive := none } 999 1 50).1
      (by decide),
   ((C6_tenant_scoping sampleDb "wh_a" "t1" urlOk
      { url := none, events := none, description := none, isActive := none } 999 1 50).2.2.2.2
      [rowA] 1 rfl).2.1⟩

/-- Hex encoding emits two characters per byte. -/
theorem hexPairs_length (bs : List Nat) :
    ((bs.map (fun b => [Sha256.hexDigit (b / 16), Sha256.hexDigit (b % 16)])).flatten).length
      = 2 * bs.length := by
  induction bs with
  | nil => rfl
  | cons b tl ih =>
    simp only [List.map_cons, List.flatten_cons, List.length_append, List.length_cons,
      List.length_nil, List.length_cons, ih]
    omega

/-- The hex string of a byte string has twice its length. -/
theorem bytesToHex_length (bs : List Nat) :
    (Sha256.bytesToHex bs).length = 2 * bs.length := by
  unfold Sha256.bytesToHex
  show ((bs.map (fun b => [Sha256.hexDigit (b / 16), Sha256.hexDigit (b % 16)])).flatten).length
      = 2 * bs.length
  exact hexPairs_length bs

/-- A successful create returns exactly the row-and-store pair that
`mkCreated` builds. -/
theorem createWebhook_ok (isValidUrl : String → Bool) (db : Db) (tenantId userId : String)
    (input : CreateWebhookInput) (secretBytes : List Nat) (newId : String) (now : Nat)
    (sub : Subscription) (db' : Db)
    (h : createWebhook isValidUrl db tenantId userId input secretBytes newId now
        = .ok (sub, db')) :
    (sub, db') = mkCreated db tenantId userId input secretBytes newId now := by
  unfold createWebhook at h
  split at h
  · exact absurd h (by simp)
  · split at h
    · exact absurd h (by simp)
    · split at h
      · split at h
        · exact absurd h (by simp)
        · simpa using h.symm
      · simpa using h.symm

/-- C7: `createWebhook` rejects an unparseable URL and an empty events
array with a validation error (creating nothing); every accepted input is
stored with a freshly generated secret — the hex encoding of the 32 drawn
random bytes — which is part of the returned (201) record, and a 32-byte
draw always yields a 64-character secret. -/
theorem C7_create_validation_secret (isValidUrl : String → Bool) (db : Db)
    (tenantId userId : String) (input : CreateWebhookInput) (secretBytes : List Nat)
    (newId : String) (now : Nat) :
    (isValidUrl input.url = false →
        createWebhook isValidUrl db tenantId userId input secretBytes newId now
          = .error (.validation "Invalid webhook URL"))
    ∧ (input.events = [] → isValidUrl input.url = true →
        createWebhook isValidUrl db tenantId userId input secretBytes newId now
          = .error (.validation "At least one event must be specified"))
    ∧ (∀ sub db',
        createWebhook isValidUrl db tenantId userId input secretBytes newId now
          = .ok (sub, db') →
        sub.secret = Sha256.bytesToHex secretBytes
        ∧ sub.url = input.url ∧ sub.events = input.events ∧ sub.tenantId = tenantId
        ∧ sub.createdBy = userId ∧ sub.isActive = true
        ∧ db'.subscriptions = db.subscriptions ++ [sub]
        ∧ db'.deliveries = db.deliveries
        ∧ (secretBytes.length = 32 → sub.secret.length = 64)) := by
  refine ⟨fun hbad => ?_, fun hev hok => ?_, fun sub db' h => ?_⟩
  · simp [createWebhook, hbad]
  · simp [createWebhook, hev, hok]
  · have hmk := createWebhook_ok isValidUrl db tenantId userId input secretBytes newId now
      sub db' h
    simp only [mkCreated, Prod.mk.injEq] at hmk
    obtain ⟨hsub, hdb⟩ := hmk
    subst hsub
    subst hdb
    refine ⟨rfl, rfl, rfl, rfl, rfl, rfl, rfl, rfl, fun h32 => ?_⟩
    show (Sha256.bytesToHex secretBytes).length = 64
    rw [bytesToHex_length, h32]

/-- C7 witness: a bad URL and an empty events array are rejected; an
accepted input stores and returns a 64-character hex secret. -/
theorem C7_create_validation_secret_witness :
    createWebhook urlOk sampleDb "t1" "u1"
        { url := "not a url", events := ["e"], description := none }
        (List.replicate 32 171) "wh_new" 500
      = .error (.validation "Invalid webhook URL")
    ∧ createWebhook urlOk sampleDb "t1" "u1"
        { url := "https://ok.example/h", events := [], description := none }
        (List.replicate 32 171) "wh_new" 500
      = .error (.validation "At least one event must be specified")
    ∧ ∀ sub db',
        createWebhook urlOk sampleDb "t1" "u1"
            { url := "https://ok.example/h", events := ["e"], description := none }
            (List.replicate 32 171) "wh_new" 500
          = .ok (sub, db') →
        sub.secret = Sha256.bytesToHex (List.replicate 32 171) ∧ sub.secret.length = 64 :=
  ⟨(C7_create_validation_secret urlOk sampleDb "t1" "u1"
      { url := "not a url", events := ["e"], description := none }
      (List.replicate 32 171) "wh_new" 500).1 (by decide),
   (C7_create_validation_secret urlOk sampleDb "t1" "u1"
      { url := "https://ok.example/h", events := [], description := none }
      (List.replicate 32 171) "wh_new" 500).2.1 rfl (by decide),
   fun sub db' h =>
    have hp := (C7_create_validation_secret urlOk sampleDb "t1" "u1"
      { url := "https://ok.example/h", events := ["e"], description := none }
      (List.replicate 32 171) "wh_new" 500).2.2 sub db' h
    ⟨hp.1, hp.2.2.2.2.2.2.2.2 (by decide)⟩⟩

/-- C10: with a TenantPlan row present and the tenant's active-subscription
count at or above maxWebhooks, creation fails with a Conflict error (not a
validation error) even for a valid url and non-empty events, and nothing is
created; with no plan row, no limit is enforced and the same input is
stored. -/
theorem C10_plan_limit (isValidUrl : String → Bool) (db : Db) (tenantId userId : String)
    (input : CreateWebhookInput) (secretBytes : List Nat) (newId : String) (now : Nat) :
    (∀ plan, findPlan db tenantId = some plan →
        plan.maxWebhooks ≤ activeWebhookCount db tenantId →
        isValidUrl input.url = true → input.events ≠ [] →
        createWebhook isValidUrl db tenantId userId input secretBytes newId now
          = .error (.conflict ("Webhook limit reached. Your plan allows "
              ++ toString plan.maxWebhooks ++ " webhooks.")))
    ∧ (findPlan db tenantId = none → isValidUrl input.url = true → input.events ≠ [] →
        createWebhook isValidUrl db tenantId userId input secretBytes newId now
          = .ok (mkCreated db tenantId userId input secretBytes newId now)) := by
  constructor
  · intro plan hplan hle hok hev
    rw [← List.isEmpty_eq_false] at hev
    simp [createWebhook, hok, hev, hplan, hle]
  · intro hplan hok hev
    rw [← List.isEmpty_eq_false] at hev
    simp [createWebhook, hok, hev, hplan]

/-- C10 witness: tenant t1 holds 1 active subscription; with a plan capped
at maxWebhooks = 1 a fully valid create conflicts, and with no plan row
the same input is stored. -/
theorem C10_plan_limit_witness :
    createWebhook urlOk plannedDb "t1" "u1"
        { url := "https://c.example/h", events := ["e"], description := none }
        (List.replicate 32 7) "wh_new" 500
      = .error (.conflict "Webhook limit reached. Your plan allows 1 webhooks.")
    ∧ createWebhook urlOk sampleDb "t1" "u1"
        { url := "https://c.example/h", events := ["e"], description := none }
        (List.replicate 32 7) "wh_new" 500
      = .ok (mkCreated sampleDb "t1" "u1"
          { url := "https://c.example/h", events := ["e"], description := none }
          (List.replicate 32 7) "wh_new" 500) :=
  ⟨(C10_plan_limit urlOk plannedDb "t1" "u1"
      { url := "https://c.example/h", events := ["e"], description := none }
      (List.replicate 32 7) "wh_new" 500).1 planT1 rfl (by decide) (by decide) (by decide),
   (C10_plan_limit urlOk sampleDb "t1" "u1"
      { url := "https://c.example/h", events := ["e"], description := none }
      (List.replicate 32 7) "wh_new" 500).2 rfl (by decide) (by decide)⟩

/-- C9: an update through the PATCH route re-validates whatever is
supplied — a supplied unparseable URL or a supplied empty events array is
rejected with a validation error, leaving the store untouched — and a
successful update changes exactly the supplied fields: unsupplied url,
events, description and isActive keep their previous values, and secret,
tenant, id and creation metadata are never touched. -/
theorem C9_update_patch (isValidUrl : String → Bool) (db : Db)
    (webhookId tenantId : String) (input : UpdateWebhookInput) (now : Nat) :
    ((∃ u, input.url = some u ∧ isValidUrl u = false) ∨ input.events = some [] →
        routeUpdateWebhook isValidUrl db webhookId tenantId input now
          = .error (.validation "Validation failed"))
    ∧ (∀ w' db',
        routeUpdateWebhook isValidUrl db webhookId tenantId input now = .ok (w', db') →
        ∃ w, getWebhook db webhookId tenantId = .ok w
          ∧ w' = applyUpdate w input now
          ∧ (∀ u, input.url = some u → w'.url = u)
          ∧ (input.url = none → w'.url = w.url)
          ∧ (∀ es, input.events = some es → w'.events = es)
          ∧ (input.events = none → w'.events = w.events)
          ∧ (∀ d, input.description = some d → w'.description = some d)
          ∧ (input.description = none → w'.description = w.description)
          ∧ (∀ b, input.isActive = some b → w'.isActive = b)
          ∧ (input.isActive = none → w'.isActive = w.isActive)
          ∧ w'.secret = w.secret ∧ w'.tenantId = w.tenantId ∧ w'.id = w.id
          ∧ w'.createdBy = w.createdBy ∧ w'.createdAt = w.createdAt
          ∧ db'.subscriptions = replaceSub db.subscriptions w.id w'
          ∧ db'.deliveries = db.deliveries ∧ db'.plans = db.plans) := by
  constructor
  · intro hbad
    have hfalse : updateSchemaOk isValidUrl input = false := by
      rcases hbad with ⟨u, hu, hval⟩ | hev
      · simp [updateSchemaOk, hu, hval]
      · simp [updateSchemaOk, hev]
    simp [routeUpdateWebhook, hfalse]
  · intro w' db' h
    unfold routeUpdateWebhook at h
    split at h
    case isFalse => exact absurd h (by simp)
    unfold updateWebhook at h
    rcases hget : getWebhook db webhookId tenantId with e | w <;> rw [hget] at h <;>
      dsimp only at h
    · exact absurd h (by simp)
    by_cases hurl : (match input.url with
        | some u => (u != "") && !(isValidUrl u) | none => false) = true
    · rw [if_pos hurl] at h
      exact absurd h (by simp)
    rw [if_neg hurl] at h
    by_cases hev : (match input.events with | some es => es.isEmpty | none => false) = true
    · rw [if_pos hev] at h
      exact absurd h (by simp)
    rw [if_neg hev] at h
    simp only [Except.ok.injEq, Prod.mk.injEq] at h
    obtain ⟨hw', hdb'⟩ := h
    subst hw'
    subst hdb'
    refine ⟨w, rfl, rfl, ?_, ?_, ?_, ?_, ?_, ?_, ?_, ?_, rfl, rfl, rfl, rfl, rfl,
      rfl, rfl, rfl⟩
    · intro u hu
      simp [applyUpdate, hu]
    · intro hu
      simp [applyUpdate, hu]
    · intro es hes
      simp [applyUpdate, hes]
    · intro hes
      simp [applyUpdate, hes]
    · intro d hd
      simp [applyUpdate, hd]
    · intro hd
      simp [applyUpdate, hd]
    · intro b hb
      simp [applyUpdate, hb]
    · intro hb
      simp [applyUpdate, hb]

/-- C9 witness: a supplied bad URL is rejected with a validation error; a
partial update supplying only description and isActive keeps the secret. -/
theorem C9_update_patch_witness :
    routeUpdateWebhook urlOk sampleDb "wh_a" "t1" patchBadUrl 999
      = .error (.validation "Validation failed")
    ∧ ∃ w, getWebhook sampleDb "wh_a" "t1" = .ok w
        ∧ (applyUpdate w patchDI 999).secret = w.secret := by
  refine ⟨(C9_update_patch urlOk sampleDb "wh_a" "t1" patchBadUrl 999).1
      (Or.inl ⟨"bad", rfl, by decide⟩), ?_⟩
  obtain ⟨w, hget, hw', _, _, _, _, _, _, _, _, hsecret, _⟩ :=
    (C9_update_patch urlOk sampleDb "wh_a" "t1" patchDI 999).2
      (applyUpdate subA patchDI 999)
      { subscriptions := replaceSub sampleDb.subscriptions "wh_a" (applyUpdate subA patchDI 999)
        deliveries := sampleDb.deliveries
        plans := sampleDb.plans }
      rfl
  exact ⟨w, hget, hw' ▸ hsecret⟩

/-- Every row an attempt inserts cites the job snapshot's subscription id
and url. -/
theorem processWebhookJob_rows_src (job : WebhookJobData) (made now : Nat)
    (o : HttpOutcome) :
    ∀ r ∈ (processWebhookJob job made now o).rows,
      r.webhookId = job.webhookId ∧ r.url = job.url := by
  match o with
  | .networkError msg =>
    intro r hr
    simp only [processWebhookJob, List.mem_singleton] at hr
    subst hr
    exact ⟨rfl, rfl⟩
  | .response status body =>
    intro r hr
    by_cases h : statusOk status = true
    · simp only [processWebhookJob, h, if_true, List.mem_singleton] at hr
      subst hr
      exact ⟨rfl, rfl⟩
    · rw [Bool.not_eq_true] at h
      simp only [processWebhookJob, h, Bool.false_eq_true, if_false, List.mem_cons,
        List.mem_singleton, List.not_mem_nil, or_false] at hr
      rcases hr with hr | hr <;> subst hr <;> exact ⟨rfl, rfl⟩

/-- C8: deleting a subscription removes only that subscription row — the
delivery log (which the schema does not cascade) and the plan table are
untouched, every already-written row remaining — and a job enqueued for a
matching subscription before the deletion still carries the snapshot url
and secret: the request it sends targets the snapshot url, signs with the
snapshot secret, and every row it logs cites the snapshot id and url. -/
theorem C8_delete_frame (db : Db) (webhookId tenantId : String) (ev : WebhookEvent)
    (queue : List QueuedJob) :
    (∀ db', deleteWebhook db webhookId tenantId = .ok db' →
        db'.deliveries = db.deliveries
        ∧ db'.plans = db.plans
        ∧ db'.subscriptions = db.subscriptions.filter (fun s => s.id != webhookId)
        ∧ (∀ r, r ∈ db.deliveries ↔ r ∈ db'.deliveries))
    ∧ (∀ w ∈ db.subscriptions, webhookMatches ev.tenantId ev.event w = true →
        ({ name := "webhook-" ++ ev.event, data := jobSnapshot ev w } : QueuedJob)
            ∈ (triggerWebhooks db queue ev).2
        ∧ (∀ ts, (buildWebhookRequest (jobSnapshot ev w) ts).url = w.url
            ∧ (buildWebhookRequest (jobSnapshot ev w) ts).headers.lookup "X-Webhook-Signature"
              = some (Sha256.hmacSha256Hex w.secret (signingString ts (.obj ev.payload))))
        ∧ (∀ made now o, ∀ r ∈ (processWebhookJob (jobSnapshot ev w) made now o).rows,
            r.webhookId = w.id ∧ r.url = w.url)) := by
  constructor
  · intro db' h
    unfold deleteWebhook getWebhook at h
    rcases hfind : findWebhook db webhookId tenantId with _ | w <;> rw [hfind] at h
    · exact absurd h (by simp)
    obtain ⟨hm, hid, ht⟩ := findWebhook_eq_some db webhookId tenantId w hfind
    simp only [Except.ok.injEq] at h
    subst h
    exact ⟨rfl, rfl, by rw [hid], fun r => Iff.rfl⟩
  · intro w hw hmatch
    refine ⟨?_, fun ts => ⟨rfl, rfl⟩, fun made now o => processWebhookJob_rows_src _ made now o⟩
    rw [triggerWebhooks_snd]
    refine List.mem_append_right _ ?_
    exact List.mem_map_of_mem _ (List.mem_filter.mpr ⟨hw, hmatch⟩)

/-- C8 witness: deleting wh_a leaves its delivery row in place, and the
job dispatched for wh_a before the deletion still signs with wh_a's
snapshot secret and targets its snapshot url. -/
theorem C8_delete_frame_witness :
    (∀ db', deleteWebhook sampleDb "wh_a" "t1" = .ok db' →
        db'.deliveries = sampleDb.deliveries)
    ∧ ({ name := "webhook-" ++ sampleEv.event, data := jobSnapshot sampleEv subA } : QueuedJob)
        ∈ (triggerWebhooks sampleDb [] sampleEv).2
    ∧ (buildWebhookRequest (jobSnapshot sampleEv subA) 1700000000000).url = subA.url :=
  ⟨fun db' h => ((C8_delete_frame sampleDb "wh_a" "t1" sampleEv []).1 db' h).1,
   ((C8_delete_frame sampleDb "wh_a" "t1" sampleEv []).2 subA (by decide) (by decide)).1,
   (((C8_delete_frame sampleDb "wh_a" "t1" sampleEv []).2 subA (by decide)
      (by decide)).2.1 1700000000000).1⟩

end Backend
